import Mathlib

/-!
Verification development for the db-backup control-plane backend.

Python strings are modelled as lists of characters (`PyStr`), and the
string primitives used by the source (`str.strip`, `str.split`,
`str.split(sep)`, `in`, `startswith`) are re-implemented by structural
recursion so that every definition evaluates inside the kernel.
Stateful code is modelled by explicit state passing; fallible code
returns `Option`/`Except`.  External collaborators (paramiko transport,
the AES-GCM primitive, the compression codecs, the blob store, croniter)
are passed in as function parameters; their contracts appear as explicit
hypotheses of the theorems that need them.
-/

namespace DbBackup

/-- Python strings as lists of characters. -/
abbrev PyStr := List Char

/-- Coerce a Lean string literal to the `PyStr` model. -/
def pys (s : String) : PyStr := s.data

/-- Whitespace characters recognised by Python `str.strip` / `str.split`. -/
def isWs (c : Char) : Bool :=
  c = ' ' || c = '\t' || c = '\n' || c = '\r' || c = '\x0b' || c = '\x0c'

/-- Model of Python `str.strip()`: drop whitespace from both ends. -/
def pyStrip (s : PyStr) : PyStr :=
  ((s.dropWhile isWs).reverse.dropWhile isWs).reverse

/-- Accumulator worker for `pyTokens`; `cur` holds the current token reversed. -/
def pyTokensAux : PyStr → PyStr → List PyStr
  | [], cur => if cur = [] then [] else [cur.reverse]
  | c :: rest, cur =>
    if isWs c then
      if cur = [] then pyTokensAux rest [] else cur.reverse :: pyTokensAux rest []
    else
      pyTokensAux rest (c :: cur)

/-- Model of Python `str.split()` (no argument): split on whitespace runs, dropping empties. -/
def pyTokens (s : PyStr) : List PyStr := pyTokensAux s []

/-- Whether `p` is a leading segment of `s` (Python `s.startswith(p)`). -/
def listLeadOf : PyStr → PyStr → Bool
  | [], _ => true
  | _, [] => false
  | a :: as, b :: bs => a = b && listLeadOf as bs

/-- Whether `pat` occurs as a contiguous substring of `s` (Python `pat in s`). -/
def containsSub (pat : PyStr) : PyStr → Bool
  | [] => listLeadOf pat []
  | c :: rest => listLeadOf pat (c :: rest) || containsSub pat rest

/-- Accumulator worker for `splitOnChar`. -/
def splitOnCharAux (sep : Char) : PyStr → PyStr → List PyStr
  | [], cur => [cur.reverse]
  | c :: rest, cur =>
    if c = sep then cur.reverse :: splitOnCharAux sep rest []
    else splitOnCharAux sep rest (c :: cur)

/-- Model of Python `str.split(sep)` for a one-character separator (keeps empty parts). -/
def splitOnChar (sep : Char) (s : PyStr) : List PyStr := splitOnCharAux sep s []

/-- Result container returned by every executor (`executor.py` lines 27-33).
`exit_code` defaults to 0 in the source constructor. -/
structure ExecutionResult where
  success : Bool
  stdout : PyStr
  stderr : PyStr
  exit_code : Int
deriving DecidableEq

/-- Python exceptions that can escape `_validate_command`: a `ValidationError`
carrying a message, or the `IndexError` raised by `part.strip().split()[0]`
on a blank pipe segment (`executor.py` line 122). -/
inductive PyErr where
  | vErr (msg : PyStr)
  | idxErr
deriving DecidableEq

/-- Allow-list of the SSH executor (`executor.py` lines 98-106).  The source
compares with `str.startswith`, not with exact membership. -/
def sshAllowList : List PyStr :=
  [pys "pg_dump", pys "pg_restore", pys "pg_basebackup", pys "psql",
   pys "mysqldump", pys "mysql",
   pys "mongodump", pys "mongorestore",
   pys "redis-cli",
   pys "tar", pys "gzip", pys "gunzip", pys "zstd", pys "lz4",
   pys "cat", pys "ls", pys "mkdir", pys "rm", pys "cp", pys "mv",
   pys "du", pys "df", pys "which", pys "echo", pys "test"]

/-- Pipe targets accepted on the right of `|` (`executor.py` line 118). -/
def safePipes : List PyStr := [pys "gzip", pys "gunzip", pys "zstd", pys "lz4"]

/-- Dangerous patterns rejected by the final loop of `_validate_command`
(`executor.py` line 127); note `|` is deliberately absent there. -/
def sshDangerList : List PyStr :=
  [pys ";", pys "&", pys "\n", pys "\r", pys "$(", pys "`"]

/-- Model of the pipe-segment loop (`executor.py` lines 119-124): each segment
after a `|` must tokenize to a head that starts with a safe pipe target;
a blank segment raises `IndexError`. -/
def checkPipeParts : List PyStr → Except PyErr Unit
  | [] => .ok ()
  | part :: rest =>
    match (pyTokens (pyStrip part)).head? with
    | none => .error .idxErr
    | some piped =>
      if safePipes.any (fun sp => listLeadOf sp piped) then checkPipeParts rest
      else .error (.vErr (pys "Unsafe pipe command: " ++ piped))

/-- Model of the dangerous-pattern loop (`executor.py` lines 127-129). -/
def checkDanger : List PyStr → PyStr → Except PyErr Unit
  | [], _ => .ok ()
  | p :: rest, command =>
    if containsSub p command then
      .error (.vErr (pys "Command contains dangerous pattern: " ++ p))
    else checkDanger rest command

/-- Model of `SSHExecutor._validate_command` (`executor.py` lines 89-129). -/
def ssh_validate_command (command : PyStr) : Except PyErr Unit :=
  if pyStrip command = [] then .error (.vErr (pys "Command cannot be empty"))
  else
    match (pyTokens (pyStrip command)).head? with
    | none => .error .idxErr
    | some base =>
      if sshAllowList.any (fun p => listLeadOf p base) then
        match (if containsSub (pys "|") command then
                 checkPipeParts ((splitOnChar '|' command).drop 1)
               else .ok ()) with
        | .error e => .error e
        | .ok _ => checkDanger sshDangerList command
      else .error (.vErr (pys "Command not allowed: " ++ base))

/-- Outcome of `SSHExecutor.execute`: either an `ExecutionResult` is returned
(together with whether the remote transport was used), or a non-`ValidationError`
exception escaped the call. -/
inductive SSHExecOutcome where
  | result (r : ExecutionResult) (transportCalled : Bool)
  | raised
deriving DecidableEq

/-- Model of `SSHExecutor.execute` (`executor.py` lines 131-166).  The remote
session (connection plus `exec_command`) is abstracted into `transport`;
a `ValidationError` is converted to a failed result before any remote
activity, while the `IndexError` of a blank pipe segment escapes. -/
def ssh_execute (transport : PyStr → ExecutionResult) (command : PyStr) :
    SSHExecOutcome :=
  match ssh_validate_command command with
  | .error (.vErr m) =>
    .result { success := false, stdout := [], stderr := pys "Command validation failed: " ++ m, exit_code := 0 } false
  | .error .idxErr => .raised
  | .ok _ => .result (transport command) true

/-- Head token of a submitted command, when one exists. -/
def headTokenOf (command : PyStr) : Option PyStr :=
  (pyTokens (pyStrip command)).head?

/-- The head token exists but starts with no allow-list entry. -/
def headNotAllowed (command : PyStr) : Bool :=
  match headTokenOf command with
  | none => false
  | some b => !(sshAllowList.any (fun p => listLeadOf p b))

/-- The command contains one of the dangerous patterns of `sshDangerList`. -/
def hasDangerous (command : PyStr) : Bool :=
  sshDangerList.any (fun p => containsSub p command)

/-- Every pipe segment after the first tokenizes to a head token
(otherwise the source raises `IndexError` instead of failing cleanly). -/
def pipePartsOk (command : PyStr) : Bool :=
  ((splitOnChar '|' command).drop 1).all
    (fun part => (pyTokens (pyStrip part)).head?.isSome)

/-! ## Kubernetes executor (`executor.py` lines 308-392) -/

/-- Lowercase-alphanumeric character class `[a-z0-9]` of the namespace regex. -/
def isLowerAlnum (c : Char) : Bool :=
  ('a' ≤ c && c ≤ 'z') || ('0' ≤ c && c ≤ '9')

/-- Alphanumeric character class `[a-zA-Z0-9]` of the container-name regex. -/
def isAlnumAnyCase (c : Char) : Bool :=
  isLowerAlnum c || ('A' ≤ c && c ≤ 'Z')

/-- Full match of the namespace regex of `validation.py` line 145,
regex `[a-z0-9]([-a-z0-9]*[a-z0-9])?` anchored at both ends: nonempty,
every character in `[-a-z0-9]`, and the first and last in `[a-z0-9]`. -/
def nsRegexOk (cs : PyStr) : Bool :=
  cs ≠ [] && cs.all (fun c => isLowerAlnum c || c = '-') &&
  isLowerAlnum (cs.headD 'a') && isLowerAlnum (cs.getLastD 'a')

/-- Model of `validate_namespace` (`validation.py` lines 139-149). -/
def validate_namespace (ns : PyStr) : Except PyStr Unit :=
  if ns = [] || ns.length > 63 then .error (pys "Invalid namespace length")
  else if nsRegexOk ns then .ok ()
  else .error (pys "Invalid namespace format (must be lowercase alphanumeric with hyphens)")

/-- Full match of the container-name regex of `validation.py` line 132,
regex `[a-zA-Z0-9][a-zA-Z0-9_.-]*` anchored at both ends. -/
def containerRegexOk : PyStr → Bool
  | [] => false
  | c :: rest =>
    isAlnumAnyCase c &&
    rest.all (fun d => isAlnumAnyCase d || d = '_' || d = '.' || d = '-')

/-- Model of `validate_container_name` (`validation.py` lines 126-136). -/
def validate_container_name (name : PyStr) : Except PyStr Unit :=
  if name = [] || name.length > 255 then .error (pys "Invalid container name length")
  else if containerRegexOk name then .ok ()
  else .error (pys "Invalid container name format")

/-- Allow-list of the Kubernetes executor (`executor.py` lines 330-337). -/
def k8sAllowList : List PyStr :=
  [pys "pg_dump", pys "pg_restore", pys "psql",
   pys "mysqldump", pys "mysql",
   pys "mongodump", pys "mongorestore",
   pys "redis-cli",
   pys "tar", pys "gzip", pys "gunzip", pys "zstd", pys "lz4",
   pys "cat", pys "ls", pys "echo", pys "sh", pys "bash"]

/-- Patterns rejected in every argument of a pod-exec command
(`executor.py` line 345). -/
def k8sDangerList : List PyStr :=
  [pys ";", pys "&", pys "$(", pys "`", pys "\n", pys "\r"]

/-- Per-argument scan of `KubernetesExecutor._validate_command`
(`executor.py` lines 344-347). -/
def k8sCheckArgs : List PyStr → Except PyStr Unit
  | [] => .ok ()
  | arg :: rest =>
    match k8sDangerList.find? (fun p => containsSub p arg) with
    | some p => .error (pys "Command argument contains dangerous pattern: " ++ p)
    | none => k8sCheckArgs rest

/-- Model of `KubernetesExecutor._validate_command` (`executor.py` lines 324-347). -/
def k8s_validate_command (cmd : List PyStr) : Except PyStr Unit :=
  match cmd with
  | [] => .error (pys "Command must be a non-empty list")
  | base :: _ =>
    if k8sAllowList.any (fun p => listLeadOf p base) then k8sCheckArgs cmd
    else .error (pys "Command not allowed: " ++ base)

/-- Validation chain of `KubernetesExecutor.execute` (`executor.py` lines 357-365):
namespace, then command, then (when present) the container name.  The pod
name itself is never validated by the source. -/
def k8s_validate_all (ns : PyStr) (cmd : List PyStr) (container : Option PyStr) :
    Except PyStr Unit :=
  match validate_namespace ns with
  | .error e => .error e
  | .ok _ =>
    match k8s_validate_command cmd with
    | .error e => .error e
    | .ok _ =>
      match container with
      | some c => validate_container_name c
      | none => .ok ()

/-- Outcome of the orchestrator streaming call: a response string, an
`ApiException` (the only exception caught at `executor.py` line 390), or
any other exception, which propagates out of `execute`. -/
inductive K8sApiOutcome where
  | ok (resp : PyStr)
  | apiErr (msg : PyStr)
  | raisedOther (msg : PyStr)
deriving DecidableEq

/-- Model of `KubernetesExecutor.execute` (`executor.py` lines 349-392).
`none` means an exception propagated to the caller.  On a non-exceptional
stream the source builds `ExecutionResult(success=True, stdout=resp)` with
the defaulted `exit_code = 0`, never consulting the remote exit status. -/
def k8s_execute (api : K8sApiOutcome) (ns _pod : PyStr) (cmd : List PyStr)
    (container : Option PyStr) : Option ExecutionResult :=
  match k8s_validate_all ns cmd container with
  | .error e =>
    some { success := false, stdout := [], stderr := pys "Validation failed: " ++ e, exit_code := 0 }
  | .ok _ =>
    match api with
    | .ok resp => some { success := true, stdout := resp, stderr := [], exit_code := 0 }
    | .apiErr m => some { success := false, stdout := [], stderr := m, exit_code := 0 }
    | .raisedOther _ => none

/-! ## Crypto and compression primitives (`encryption.py`) -/

/-- Compression algorithms (`models/backup.py` lines 36-41). -/
inductive CompressionType where
  | none
  | gzip
  | lz4
  | zstd
deriving DecidableEq

/-- An external compression library: a compressor and a decompressor that
may fail on malformed input. -/
structure CodecFns where
  comp : List Nat → List Nat
  decomp : List Nat → Option (List Nat)

/-- Model of `CompressionService.compress_file` (`encryption.py` lines 103-153):
dispatch on the codec; any other type is a plain copy (`shutil.copy2`). -/
def compress_file (gz lz zs : CodecFns) : CompressionType → List Nat → List Nat
  | .gzip, d => gz.comp d
  | .lz4, d => lz.comp d
  | .zstd, d => zs.comp d
  | .none, d => d

/-- Model of `CompressionService.decompress_file` (`encryption.py` lines 155-205). -/
def decompress_file (gz lz zs : CodecFns) : CompressionType → List Nat → Option (List Nat)
  | .gzip, d => gz.decomp d
  | .lz4, d => lz.decomp d
  | .zstd, d => zs.decomp d
  | .none, d => some d

/-- Model of `EncryptionService.encrypt_file` (`encryption.py` lines 44-70):
the on-disk format is the 12-byte random nonce followed by the GCM
ciphertext-plus-tag produced by the external AES-GCM primitive `enc`. -/
def encrypt_file_bytes (enc : List Nat → List Nat → List Nat)
    (nonce plaintext : List Nat) : List Nat :=
  nonce ++ enc nonce plaintext

/-- Model of `EncryptionService.decrypt_file` (`encryption.py` lines 72-97):
split the file at the 12-byte boundary and hand both pieces to the
external AES-GCM primitive `dec`, which fails on tampered input. -/
def decrypt_file_bytes (dec : List Nat → List Nat → Option (List Nat))
    (data : List Nat) : Option (List Nat) :=
  dec (data.take 12) (data.drop 12)

/-! ## Restore pipeline (`backup_tasks.py` lines 227-369) -/

/-- The fields of a `Backup` row consulted by `restore_backup_task`. -/
structure RestoreBackupRec where
  is_encrypted : Bool
  is_compressed : Bool
  compression_type : CompressionType
  checksum : Option PyStr
deriving DecidableEq

/-- Steps download, decrypt-if-flagged, decompress-if-flagged of
`restore_backup_task` (`backup_tasks.py` lines 255-296), producing the
bytes of the staged restore file.  `dec` is `EncryptionService.decrypt_file`
with the derived key fixed, `decomp` is `CompressionService.decompress_file`. -/
def restore_stage (dec : List Nat → Option (List Nat))
    (decomp : CompressionType → List Nat → Option (List Nat))
    (b : RestoreBackupRec) (downloaded : Option (List Nat)) :
    Except PyStr (List Nat) :=
  match downloaded with
  | none => .error (pys "Failed to download backup from storage")
  | some d0 =>
    match (if b.is_encrypted then dec d0 else some d0) with
    | none => .error (pys "Decryption failed")
    | some d1 =>
      match (if b.is_compressed then decomp b.compression_type d1 else some d1) with
      | none => .error (pys "Decompression failed")
      | some d2 => .ok d2

/-- Checksum verification step (`backup_tasks.py` lines 298-302 together with
`ChecksumService.verify_checksum`, `encryption.py` lines 230-241).  The source
computes `backup.checksum.split(':')[1]`; an absent index 1 would raise
`IndexError`, modelled here as its error message.  A falsy (`None` or empty)
checksum skips verification. -/
def checksumGate (sha : List Nat → PyStr) (checksum : Option PyStr)
    (d : List Nat) : Except PyStr (List Nat) :=
  match checksum with
  | none => .ok d
  | some cs =>
    if cs = [] then .ok d
    else
      match (splitOnChar ':' cs).get? 1 with
      | none => .error (pys "IndexError: list index out of range")
      | some expected =>
        if sha d = expected then .ok d
        else .error (pys "Checksum verification failed")

/-- Model of `restore_backup_task` up to the engine call (`backup_tasks.py`
lines 245-329): a `.ok bytes` value is exactly an invocation of
`engine.restore_backup` on those staged bytes; every `.error` aborts the
task before the engine — and hence the target database — is touched. -/
def restore_backup_task (sha : List Nat → PyStr)
    (dec : List Nat → Option (List Nat))
    (decomp : CompressionType → List Nat → Option (List Nat))
    (b : RestoreBackupRec) (downloaded : Option (List Nat)) :
    Except PyStr (List Nat) :=
  (restore_stage dec decomp b downloaded).bind (checksumGate sha b.checksum)

/-! ## Create-backup pipeline (`backup_tasks.py` lines 35-224) -/

/-- Backup status enum (`models/backup.py` lines 27-33). -/
inductive BackupStatus where
  | pending
  | in_progress
  | completed
  | failed
  | deleted
deriving DecidableEq

/-- The fields of the `Backup` row written by the terminal commit of
`create_backup_task` (lines 166-191 on success, 210-215 on failure). -/
structure PipelineRow where
  status : BackupStatus
  storage_path : Option PyStr
  size_bytes : Option Nat
  checksum : Option PyStr
  error_message : Option PyStr
deriving DecidableEq

/-- Row committed by the exception handler (`backup_tasks.py` lines 210-215):
the storage fields are never assigned on that path. -/
def failedRow (msg : PyStr) : PipelineRow :=
  { status := .failed, storage_path := none, size_bytes := none,
    checksum := none, error_message := some msg }

/-- Blob-store key template of `backup_tasks.py` line 155. -/
def storageKey (datePath : PyStr) (backup_id : Nat) : PyStr :=
  pys "backups/" ++ datePath ++ pys "/backup_" ++ pys (toString backup_id) ++ pys ".dat"

/-- Model of `create_backup_task` from the successful dump onwards
(`backup_tasks.py` lines 99-224).  `dump` is the engine `CreateBackup`
outcome (`.ok` carries the dumped bytes), `compressFn`/`encryptFn` are the
compression and encryption services, `sha` is `ChecksumService.calculate_checksum`,
and `uploadOk` is the blob-store answer.  The first component is the row
written by the single terminal commit; the second is the blob actually
uploaded (key and bytes), `none` when the task failed before or at upload. -/
def create_backup_pipeline (dump : Except PyStr (List Nat))
    (compressFn : CompressionType → List Nat → Option (List Nat))
    (encryptFn : List Nat → Option (List Nat))
    (sha : List Nat → PyStr) (uploadOk : Bool)
    (backup_id : Nat) (datePath : PyStr)
    (compress_flag : Bool) (ctype : CompressionType) (encrypt_flag : Bool) :
    PipelineRow × Option (PyStr × List Nat) :=
  match dump with
  | .error e => (failedRow (pys "Backup failed: " ++ e), none)
  | .ok bytes0 =>
    match (if compress_flag then compressFn ctype bytes0 else some bytes0) with
    | none => (failedRow (pys "Compression failed"), none)
    | some bytes1 =>
      match (if encrypt_flag then encryptFn bytes1 else some bytes1) with
      | none => (failedRow (pys "Encryption failed"), none)
      | some bytes2 =>
        let cs := sha bytes2
        let key := storageKey datePath backup_id
        if uploadOk then
          ({ status := .completed, storage_path := some key,
             size_bytes := some bytes2.length,
             checksum := some (pys "sha256:" ++ cs),
             error_message := none }, some (key, bytes2))
        else (failedRow (pys "Upload to storage failed"), none)

/-! ## Worker admission (`backup_tasks.py` lines 62-69) -/

/-- The status fields a worker reads and writes when it picks up a backup. -/
structure WorkerView where
  status : BackupStatus
  started_at : Option Nat
deriving DecidableEq

/-- Model of the admission step of `create_backup_task` (`backup_tasks.py`
lines 64-69): the worker loads the row, writes `in_progress` and
`started_at`, and commits.  The observed status is never inspected; there
is no compare-and-set.  The Bool records that the worker proceeds. -/
def create_backup_start (_row : WorkerView) (now : Nat) : WorkerView × Bool :=
  ({ status := .in_progress, started_at := some now }, true)

/-- N workers sequentially performing the admission step on the same row;
returns the final row and how many workers proceeded into the pipeline. -/
def run_workers : Nat → WorkerView → Nat → WorkerView × Nat
  | 0, row, _ => (row, 0)
  | k + 1, row, now =>
    let (row1, proceeded) := create_backup_start row now
    let (fin, c) := run_workers k row1 now
    (fin, (if proceeded then 1 else 0) + c)

/-! ## Scheduler tick (`schedule_tasks.py` lines 21-69) -/

/-- Backup kind on a schedule (`models/schedule.py` lines 13-17). -/
inductive SBackupType where
  | full
  | incremental
  | differential
deriving DecidableEq

/-- The fields of a `Schedule` row used by `check_scheduled_backups`. -/
structure ScheduleRec where
  id : Nat
  server_id : Nat
  database_name : PyStr
  cron_expression : PyStr
  backup_type : SBackupType
  enabled : Bool
  last_run : Option Nat
  next_run : Option Nat
deriving DecidableEq

/-- The `Backup` row inserted for a due schedule (`schedule_tasks.py`
lines 40-46); the source writes `db_type = schedule.database_name`
(line 43, a latent slip kept faithfully here). -/
structure NewBackupRow where
  server_id : Nat
  database_name : PyStr
  db_type : PyStr
  backup_type : SBackupType
  status : BackupStatus
deriving DecidableEq

/-- Guard of `schedule_tasks.py` line 36: `schedule.next_run and schedule.next_run <= now`. -/
def scheduleDue (now : Nat) (s : ScheduleRec) : Bool :=
  match s.next_run with
  | some t => t ≤ now
  | none => false

/-- Processing of one due schedule (`schedule_tasks.py` lines 40-66): insert
one PENDING row, set `last_run = now`, and set `next_run` to the value the
external `croniter(expression, now).get_next()` returns, here `cronNext`. -/
def fireSchedule (cronNext : PyStr → Nat → Nat) (now : Nat) (s : ScheduleRec) :
    ScheduleRec × NewBackupRow :=
  ({ s with last_run := some now,
            next_run := some (cronNext s.cron_expression now) },
   { server_id := s.server_id, database_name := s.database_name,
     db_type := s.database_name, backup_type := s.backup_type,
     status := .pending })

/-- The loop body of the tick, including its failure behaviour: the single
`try` of `check_scheduled_backups` wraps the whole loop (lines 25-69), so
an exception while processing one due schedule (modelled by `fails`) ends
the loop; per-schedule commits made before it persist, the failing
schedule's flushed-but-uncommitted insert is rolled back, and the
remaining schedules are not examined. -/
def tickCommitted (fails : ScheduleRec → Bool) (cronNext : PyStr → Nat → Nat)
    (now : Nat) : List ScheduleRec → List (ScheduleRec × NewBackupRow)
  | [] => []
  | s :: rest =>
    if scheduleDue now s then
      if fails s then []
      else fireSchedule cronNext now s :: tickCommitted fails cronNext now rest
    else tickCommitted fails cronNext now rest

/-- Model of `check_scheduled_backups` (`schedule_tasks.py` lines 21-69):
query the enabled schedules, then run the loop; the outer `except` means
the task itself never raises.  Returns the committed (updated schedule,
inserted PENDING row) pairs. -/
def check_scheduled_backups (fails : ScheduleRec → Bool)
    (cronNext : PyStr → Nat → Nat) (now : Nat)
    (schedules : List ScheduleRec) : List (ScheduleRec × NewBackupRow) :=
  tickCommitted fails cronNext now (schedules.filter (·.enabled))

/-! ## Retention reaper (`schedule_tasks.py` lines 72-134) -/

/-- A completed backup as the reaper's query returns it, ordered newest
first by `created_at` (seconds since the epoch). -/
structure CompletedBackup where
  id : Nat
  created_at : Nat
deriving DecidableEq

/-- Retention rules (`models/schedule.py` lines 90-95); `none` models NULL. -/
structure RetentionPolicyRec where
  keep_last_n : Option Nat
  keep_days : Option Nat
  keep_daily : Option Nat
  keep_weekly : Option Nat
  keep_monthly : Option Nat
deriving DecidableEq

/-- Python truthiness of an optional integer column: NULL and 0 are falsy. -/
def truthy : Option Nat → Bool
  | some n => n != 0
  | none => false

/-- Calendar-date bucket used by the reaper's `backup.created_at.date()`. -/
def dayOf (t : Nat) : Nat := t / 86400

/-- The `keep_daily` loop of `schedule_tasks.py` lines 114-122, generalised
over the bucketing function: walk the list newest-first, keep the first
backup seen in each new bucket, and break once K distinct buckets exist
(the break test runs after each iteration as in the source). -/
def bucketKeepAux (bucketOf : Nat → Nat) (K : Nat) :
    List CompletedBackup → List Nat → List Nat
  | [], _ => []
  | b :: rest, seen =>
    if seen.contains (bucketOf b.created_at) then
      if K ≤ seen.length then [] else bucketKeepAux bucketOf K rest seen
    else
      b.id :: (if K ≤ seen.length + 1 then []
               else bucketKeepAux bucketOf K rest (bucketOf b.created_at :: seen))

/-- Keep-set computed by `cleanup_old_backups` (`schedule_tasks.py` lines
99-122): the union (as id lists) of the `keep_last_n`, `keep_days` and
`keep_daily` selections.  The `keep_weekly` and `keep_monthly` columns are
never read by the source task. -/
def cleanup_keep_ids (now : Nat) (policy : RetentionPolicyRec)
    (backups : List CompletedBackup) : List Nat :=
  (if truthy policy.keep_last_n then
     (backups.take (policy.keep_last_n.getD 0)).map (·.id)
   else [])
  ++ (if truthy policy.keep_days then
        ((backups.filter
            (fun b => now - policy.keep_days.getD 0 * 86400 ≤ b.created_at)).map (·.id))
      else [])
  ++ (if truthy policy.keep_daily then
        bucketKeepAux dayOf (policy.keep_daily.getD 0) backups []
      else [])

/-- A backup row after the reaper ran over it. -/
structure ReapedBackup where
  id : Nat
  status : BackupStatus
  deleted_at : Option Nat
deriving DecidableEq

/-- Model of the reaping step for one schedule (`schedule_tasks.py` lines
124-131): every completed backup outside the keep-set gets `status =
deleted` and `deleted_at = now`; kept rows are untouched.  The second
component lists the blob-store delete calls the task performs — there are
none, deletion is a catalog-only soft delete. -/
def cleanup_old_backups (now : Nat) (policy : RetentionPolicyRec)
    (backups : List CompletedBackup) : List ReapedBackup × List PyStr :=
  (backups.map (fun b =>
     if (cleanup_keep_ids now policy backups).contains b.id then
       { id := b.id, status := .completed, deleted_at := none }
     else
       { id := b.id, status := .deleted, deleted_at := some now }),
   [])

/-- Keep-set as the specification describes it (spec section 4.5 and claim
C5): the union over all five active rules, where `keep_daily`,
`keep_weekly` and `keep_monthly` keep the newest backup of each of the K
most recent distinct calendar-date, ISO-week and year-month buckets;
the week and month bucketing functions of the external calendar are
parameters. -/
def spec_keep_ids (weekOf monthOf : Nat → Nat) (now : Nat)
    (policy : RetentionPolicyRec) (backups : List CompletedBackup) : List Nat :=
  (if truthy policy.keep_last_n then
     (backups.take (policy.keep_last_n.getD 0)).map (·.id)
   else [])
  ++ (if truthy policy.keep_days then
        ((backups.filter
            (fun b => now - policy.keep_days.getD 0 * 86400 ≤ b.created_at)).map (·.id))
      else [])
  ++ (if truthy policy.keep_daily then
        bucketKeepAux dayOf (policy.keep_daily.getD 0) backups []
      else [])
  ++ (if truthy policy.keep_weekly then
        bucketKeepAux weekOf (policy.keep_weekly.getD 0) backups []
      else [])
  ++ (if truthy policy.keep_monthly then
        bucketKeepAux monthOf (policy.keep_monthly.getD 0) backups []
      else [])

/-! ## Health prober (`schedule_tasks.py` lines 137-193) -/

/-- Server health enum (`models/server.py` lines 33-38). -/
inductive SHealth where
  | healthy
  | degraded
  | unhealthy
  | unknown
deriving DecidableEq

/-- Outcome of probing one server with `executor.execute("echo 'ping'")`:
a successful result, a failed result carrying stderr, or an exception
raised anywhere in executor construction or probing. -/
inductive ProbeOutcome where
  | success
  | failed (stderr : PyStr)
  | raised (msg : PyStr)
deriving DecidableEq

/-- A health notification sent to the sink. -/
structure HealthAlert where
  status : PyStr
  message : PyStr
deriving DecidableEq

/-- Model of one server's handling inside `check_server_health`
(`schedule_tasks.py` lines 147-190): the new health status, the new
heartbeat, and the notification sent, if any.  A successful probe alerts
only when the previous status was `unhealthy`; a failed probe alerts only
when it was not; an exception sets `unknown` and never alerts. -/
def check_one_server (prev : SHealth) (probe : ProbeOutcome) (now : Nat)
    (prevHeartbeat : Option Nat) : SHealth × Option Nat × Option HealthAlert :=
  match probe with
  | .success =>
    (.healthy, some now,
     if prev = .unhealthy then
       some { status := pys "HEALTHY",
              message := pys "Server has recovered and is now healthy" }
     else none)
  | .failed stderr =>
    (.unhealthy, prevHeartbeat,
     if prev = .unhealthy then none
     else some { status := pys "UNHEALTHY",
                 message := pys "Server is not responding: " ++ stderr })
  | .raised _ => (.unknown, prevHeartbeat, none)

/-- One server observed across successive prober ticks: fold
`check_one_server` over the probe outcomes, collecting every alert sent. -/
def run_health_ticks (prev : SHealth) (hb : Option Nat) (now : Nat) :
    List ProbeOutcome → SHealth × List HealthAlert
  | [] => (prev, [])
  | p :: rest =>
    let step := check_one_server prev p now hb
    let tail := run_health_ticks step.1 step.2.1 now rest
    (tail.1, step.2.2.toList ++ tail.2)

/-! ## Auxiliary lemmas about the string model -/

/-- Head of a `dropWhile` result never satisfies the predicate. -/
theorem dropWhileHeadFalse (p : Char → Bool) :
    ∀ (l : PyStr) (c : Char) (rest : PyStr), l.dropWhile p = c :: rest → p c = false := by
  intro l
  induction l with
  | nil => intro c rest h; simp [List.dropWhile] at h
  | cons a t ih =>
    intro c rest h
    by_cases hp : p a
    · rw [List.dropWhile_cons_of_pos hp] at h
      exact ih c rest h
    · rw [List.dropWhile_cons_of_neg hp] at h
      cases h
      simpa using hp

/-- `dropWhile` returns a suffix of its input. -/
theorem dropWhileSfx (p : Char → Bool) (l : PyStr) : ∃ v, v ++ l.dropWhile p = l := by
  induction l with
  | nil => exact ⟨[], rfl⟩
  | cons a t ih =>
    by_cases hp : p a
    · obtain ⟨v, hv⟩ := ih
      exact ⟨a :: v, by simp [List.dropWhile_cons_of_pos hp, hv]⟩
    · exact ⟨[], by simp [List.dropWhile_cons_of_neg hp]⟩

/-- A stripped string is empty or starts with a non-whitespace character. -/
theorem pyStripHead (s : PyStr) :
    pyStrip s = [] ∨ ∃ c rest, pyStrip s = c :: rest ∧ isWs c = false := by
  have hmain : ∀ (t : PyStr), (∀ c r, t = c :: r → isWs c = false) →
      (t.reverse.dropWhile isWs).reverse = [] ∨
      ∃ c rest, (t.reverse.dropWhile isWs).reverse = c :: rest ∧ isWs c = false := by
    intro t hhead
    obtain ⟨v, hv⟩ := dropWhileSfx isWs t.reverse
    cases hu : (t.reverse.dropWhile isWs).reverse with
    | nil => exact Or.inl rfl
    | cons d rr =>
      right
      refine ⟨d, rr, rfl, ?_⟩
      have h2 : (t.reverse.dropWhile isWs).reverse ++ v.reverse = t := by
        have h3 := congrArg List.reverse hv
        simpa [List.reverse_append] using h3
      rw [hu] at h2
      cases t with
      | nil => simp at h2
      | cons c r =>
        have hd : d = c := by
          have := congrArg List.head? h2
          simpa using this
        exact hd ▸ hhead c r rfl
  unfold pyStrip
  cases ht : s.dropWhile isWs with
  | nil => left; rfl
  | cons c r =>
    exact hmain (c :: r) (by
      intro c2 r2 he
      have : s.dropWhile isWs = c2 :: r2 := by rw [ht, he]
      exact dropWhileHeadFalse isWs s c2 r2 this)

/-- The tokenizer never returns an empty list once a token is open. -/
theorem pyTokensAuxNeNil : ∀ (l cur : PyStr), cur ≠ [] → pyTokensAux l cur ≠ [] := by
  intro l
  induction l with
  | nil => intro cur h; simp [pyTokensAux, h]
  | cons c rest ih =>
    intro cur h
    by_cases hw : isWs c
    · simp [pyTokensAux, hw, h]
    · simpa [pyTokensAux, hw] using ih (c :: cur) (by simp)

/-- A string starting with a non-whitespace character has a head token. -/
theorem pyTokensHeadSome (c : Char) (rest : PyStr) (hc : isWs c = false) :
    (pyTokens (c :: rest)).head?.isSome = true := by
  have hne : pyTokensAux rest [c] ≠ [] := pyTokensAuxNeNil rest [c] (by simp)
  unfold pyTokens pyTokensAux
  rw [hc]
  simp only [Bool.false_eq_true, if_false]
  cases h : pyTokensAux rest [c] with
  | nil => exact absurd h hne
  | cons a t => simp [h]

/-- `splitOnCharAux` on a separator-free list yields a single part. -/
theorem splitAuxNoSep (sep : Char) :
    ∀ (l acc : PyStr), (∀ c ∈ l, c ≠ sep) → splitOnCharAux sep l acc = [acc.reverse ++ l] := by
  intro l
  induction l with
  | nil => intro acc _; simp [splitOnCharAux]
  | cons c rest ih =>
    intro acc h
    have hc : c ≠ sep := h c (by simp)
    have hrest : ∀ d ∈ rest, d ≠ sep := fun d hd => h d (by simp [hd])
    simp [splitOnCharAux, hc, ih (c :: acc) hrest]

/-- `splitOnCharAux` walks a separator-free segment and splits at the separator. -/
theorem splitAuxSeg (sep : Char) :
    ∀ (p s acc : PyStr), (∀ c ∈ p, c ≠ sep) →
      splitOnCharAux sep (p ++ sep :: s) acc
        = (acc.reverse ++ p) :: splitOnCharAux sep s [] := by
  intro p
  induction p with
  | nil => intro s acc _; simp [splitOnCharAux]
  | cons c p2 ih =>
    intro s acc h
    have hc : c ≠ sep := h c (by simp)
    have hp2 : ∀ d ∈ p2, d ≠ sep := fun d hd => h d (by simp [hd])
    simp [splitOnCharAux, hc, ih s (c :: acc) hp2]

/-! ## Claim C3 -/

/-- Claim C3 (counterexample): a worker that observes status `completed` —
anything other than `pending` — still mutates the row to `in_progress` and
proceeds; the claimed compare-and-set on `pending → in_progress` does not
exist in `create_backup_task`. -/
theorem C3_refuted :
    (create_backup_start { status := BackupStatus.completed, started_at := none } 7).2 = true ∧
    (create_backup_start { status := BackupStatus.completed, started_at := none } 7).1.status
      ≠ BackupStatus.completed := by
  decide

/-- Claim C3 (amended): the worker's `pending → in_progress` transition is an
unconditional write — the observed status is never compared to `pending` —
so of N workers picking up the same Backup row, all N proceed, and each
overwrites `status` and `started_at`. -/
theorem C3_amended (row : WorkerView) (now n : Nat) :
    create_backup_start row now
      = ({ status := BackupStatus.in_progress, started_at := some now }, true) ∧
    (run_workers n row now).2 = n := by
  refine ⟨rfl, ?_⟩
  induction n generalizing row with
  | zero => rfl
  | succ k ih =>
    show (run_workers (k + 1) row now).2 = k + 1
    rw [run_workers]
    simp [create_backup_start, ih]
    omega

/-! ## Claim C9 -/

/-- Claim C9 (counterexample): a server whose stored status is `unknown` and
whose probe succeeds transitions to `healthy` — the status differs from the
previous one — yet no notification is emitted, refuting "a health
notification is emitted if and only if the newly observed health status
differs from the previously stored status". -/
theorem C9_refuted :
    (check_one_server SHealth.unknown ProbeOutcome.success 5 none).1 ≠ SHealth.unknown ∧
    (check_one_server SHealth.unknown ProbeOutcome.success 5 none).2.2 = none := by
  decide

/-- Claim C9 (amended): a notification is emitted exactly when a successful
probe finds stored status `unhealthy`, or a failed probe finds stored
status other than `unhealthy`; transitions into or out of `unknown` and
`degraded` that do not meet these conditions are silent.  In particular
the healthy → unhealthy → healthy flap over three ticks emits exactly two
notifications. -/
theorem C9_amended (prev : SHealth) (probe : ProbeOutcome) (now : Nat) (hb : Option Nat) :
    ((check_one_server prev probe now hb).2.2.isSome = true ↔
      (probe = ProbeOutcome.success ∧ prev = SHealth.unhealthy) ∨
      ((∃ e, probe = ProbeOutcome.failed e) ∧ prev ≠ SHealth.unhealthy)) ∧
    (run_health_ticks SHealth.healthy none 9
        [ProbeOutcome.success, ProbeOutcome.failed (pys "boom"),
         ProbeOutcome.success]).2.length = 2 := by
  constructor
  · cases probe <;> by_cases h : prev = SHealth.unhealthy <;>
      simp [check_one_server, h]
  · rfl

/-- Claim C9 witness: concrete application of the amended theorem. -/
theorem C9_witness :
    (check_one_server SHealth.unhealthy ProbeOutcome.success 3 none).2.2.isSome = true :=
  (C9_amended SHealth.unhealthy ProbeOutcome.success 3 none).1.mpr (Or.inl ⟨rfl, rfl⟩)

/-! ## Claim C10 -/

/-- Claim C10: when the pod executor's inputs pass validation, a
non-exceptional streaming call always yields `success = true` and
`exit_code = 0` — the remote exit status is never consulted — and a
returned failed result can only come from a validation failure or an
`ApiException`. -/
theorem C10_pod_exec (api : K8sApiOutcome) (ns pod : PyStr) (cmd : List PyStr)
    (container : Option PyStr) :
    (k8s_validate_all ns cmd container = .ok () →
      ∀ resp, api = K8sApiOutcome.ok resp →
        k8s_execute api ns pod cmd container
          = some { success := true, stdout := resp, stderr := [], exit_code := 0 }) ∧
    (∀ r, k8s_execute api ns pod cmd container = some r → r.success = false →
      k8s_validate_all ns cmd container ≠ .ok () ∨ ∃ m, api = K8sApiOutcome.apiErr m) := by
  constructor
  · intro hv resp hapi
    subst hapi
    simp [k8s_execute, hv]
  · intro r hr hs
    cases hval : k8s_validate_all ns cmd container with
    | error e =>
      left
      simp [hval]
    | ok u =>
      right
      cases api with
      | ok resp =>
        simp [k8s_execute, hval] at hr
        rw [← hr] at hs
        simp at hs
      | apiErr m => exact ⟨m, rfl⟩
      | raisedOther m =>
        simp [k8s_execute, hval] at hr

/-- Claim C10 witness: a well-validated `echo ping` through a non-raising
stream call returns success with exit code 0. -/
theorem C10_witness :
    k8s_execute (K8sApiOutcome.ok (pys "pong")) (pys "default") (pys "db-0")
        [pys "echo", pys "ping"] none
      = some { success := true, stdout := pys "pong", stderr := [], exit_code := 0 } :=
  (C10_pod_exec (K8sApiOutcome.ok (pys "pong")) (pys "default") (pys "db-0")
      [pys "echo", pys "ping"] none).1 rfl (pys "pong") rfl

/-! ## Claim C6 -/

/-- Claim C6: whenever the create-backup pipeline commits a row with
`status = completed`, the very same commit carries a non-null
`storage_path`, `size_bytes` and `checksum`, the checksum being
`sha256:` followed by the digest of exactly the bytes uploaded under the
committed storage key. -/
theorem C6_completed_fields (dump : Except PyStr (List Nat))
    (compressFn : CompressionType → List Nat → Option (List Nat))
    (encryptFn : List Nat → Option (List Nat))
    (sha : List Nat → PyStr) (uploadOk : Bool)
    (backup_id : Nat) (datePath : PyStr)
    (cf : Bool) (ct : CompressionType) (ef : Bool)
    (h : (create_backup_pipeline dump compressFn encryptFn sha uploadOk
            backup_id datePath cf ct ef).1.status = BackupStatus.completed) :
    ∃ key bytes,
      (create_backup_pipeline dump compressFn encryptFn sha uploadOk
          backup_id datePath cf ct ef).2 = some (key, bytes) ∧
      (create_backup_pipeline dump compressFn encryptFn sha uploadOk
          backup_id datePath cf ct ef).1.storage_path = some key ∧
      (create_backup_pipeline dump compressFn encryptFn sha uploadOk
          backup_id datePath cf ct ef).1.size_bytes = some bytes.length ∧
      (create_backup_pipeline dump compressFn encryptFn sha uploadOk
          backup_id datePath cf ct ef).1.checksum = some (pys "sha256:" ++ sha bytes) := by
  unfold create_backup_pipeline at h ⊢
  cases dump with
  | error e => simp [failedRow] at h
  | ok bytes0 =>
    dsimp only at h ⊢
    revert h
    cases (if cf then compressFn ct bytes0 else some bytes0) with
    | none => intro h; simp [failedRow] at h
    | some bytes1 =>
      dsimp only
      cases (if ef then encryptFn bytes1 else some bytes1) with
      | none => intro h; simp [failedRow] at h
      | some bytes2 =>
        dsimp only
        cases uploadOk with
        | false => intro h; simp [failedRow] at h
        | true =>
          intro h
          exact ⟨storageKey datePath backup_id, bytes2, rfl, rfl, rfl, rfl⟩

/-- Claim C6 witness: a concrete successful run of the pipeline. -/
theorem C6_witness :
    ∃ key bytes,
      (create_backup_pipeline (Except.ok [1, 2, 3]) (fun _ d => some d) (fun d => some d)
          (fun _ => pys "ab") true 42 (pys "2024/06/15") false CompressionType.gzip false).2
        = some (key, bytes) ∧
      (create_backup_pipeline (Except.ok [1, 2, 3]) (fun _ d => some d) (fun d => some d)
          (fun _ => pys "ab") true 42 (pys "2024/06/15") false CompressionType.gzip false).1.storage_path
        = some key ∧
      (create_backup_pipeline (Except.ok [1, 2, 3]) (fun _ d => some d) (fun d => some d)
          (fun _ => pys "ab") true 42 (pys "2024/06/15") false CompressionType.gzip false).1.size_bytes
        = some bytes.length ∧
      (create_backup_pipeline (Except.ok [1, 2, 3]) (fun _ d => some d) (fun d => some d)
          (fun _ => pys "ab") true 42 (pys "2024/06/15") false CompressionType.gzip false).1.checksum
        = some (pys "sha256:" ++ (fun _ => pys "ab") bytes) :=
  C6_completed_fields (Except.ok [1, 2, 3]) (fun _ d => some d) (fun d => some d)
    (fun _ => pys "ab") true 42 (pys "2024/06/15") false CompressionType.gzip false rfl

/-! ## Claim C7 -/

/-- Claim C7: for any plaintext, any codec among none/gzip/lz4/zstd, and any
keyed AES-GCM primitive, compress-then-encrypt followed by
decrypt-then-decompress recovers the plaintext exactly; the encrypted file
is the 12-byte nonce followed by the GCM ciphertext and decryption splits
on that boundary.  The codec and AES-GCM round-trip laws are the contracts
of the external gzip/lz4/zstandard/cryptography libraries. -/
theorem C7_roundtrip (gz lz zs : CodecFns)
    (enc : List Nat → List Nat → List Nat)
    (dec : List Nat → List Nat → Option (List Nat))
    (nonce P : List Nat) (c : CompressionType)
    (hn : nonce.length = 12)
    (hgz : ∀ x, gz.decomp (gz.comp x) = some x)
    (hlz : ∀ x, lz.decomp (lz.comp x) = some x)
    (hzs : ∀ x, zs.decomp (zs.comp x) = some x)
    (hed : ∀ n x, dec n (enc n x) = some x) :
    (decrypt_file_bytes dec
        (encrypt_file_bytes enc nonce (compress_file gz lz zs c P))).bind
      (decompress_file gz lz zs c) = some P := by
  have ht : (nonce ++ enc nonce (compress_file gz lz zs c P)).take 12 = nonce := by
    rw [← hn]
    exact List.take_left nonce _
  have hd : (nonce ++ enc nonce (compress_file gz lz zs c P)).drop 12
      = enc nonce (compress_file gz lz zs c P) := by
    rw [← hn]
    exact List.drop_left nonce _
  unfold decrypt_file_bytes encrypt_file_bytes
  rw [ht, hd, hed]
  cases c <;> simp [compress_file, decompress_file, hgz, hlz, hzs]

/-- Claim C7 witness: concrete round-trip with identity library primitives. -/
theorem C7_witness :
    (decrypt_file_bytes (fun _ x => some x)
        (encrypt_file_bytes (fun _ x => x) (List.replicate 12 0)
          (compress_file ⟨id, some⟩ ⟨id, some⟩ ⟨id, some⟩ CompressionType.gzip [1, 2, 3]))).bind
      (decompress_file ⟨id, some⟩ ⟨id, some⟩ ⟨id, some⟩ CompressionType.gzip) = some [1, 2, 3] :=
  C7_roundtrip ⟨id, some⟩ ⟨id, some⟩ ⟨id, some⟩ (fun _ x => x) (fun _ x => some x)
    (List.replicate 12 0) [1, 2, 3] CompressionType.gzip (by simp)
    (fun _ => rfl) (fun _ => rfl) (fun _ => rfl) (fun _ _ => rfl)

/-! ## Claim C2 -/

/-- Claim C2: on restore of a backup whose stored checksum is `sha256:` plus
a colon-free digest, the staged file obtained after download, optional
decryption and optional decompression is hashed and compared against the
digest with the prefix stripped; on mismatch the task fails with
"Checksum verification failed" and the engine's restore — the only step
that touches the target database — is never invoked. -/
theorem C2_checksum_gate (sha : List Nat → PyStr)
    (dec : List Nat → Option (List Nat))
    (decomp : CompressionType → List Nat → Option (List Nat))
    (b : RestoreBackupRec) (downloaded : Option (List Nat))
    (hexs final : _)
    (hcs : b.checksum = some (pys "sha256:" ++ hexs))
    (hnc : ∀ ch ∈ hexs, ch ≠ ':')
    (hstage : restore_stage dec decomp b downloaded = .ok final)
    (hbad : sha final ≠ hexs) :
    restore_backup_task sha dec decomp b downloaded
      = .error (pys "Checksum verification failed") := by
  unfold restore_backup_task
  rw [hstage]
  show checksumGate sha b.checksum final = _
  rw [hcs]
  have harg : pys "sha256:" ++ hexs = pys "sha256" ++ ':' :: hexs := rfl
  have hsplit : splitOnChar ':' (pys "sha256:" ++ hexs) = [pys "sha256", hexs] := by
    rw [harg]
    unfold splitOnChar
    rw [splitAuxSeg ':' (pys "sha256") hexs [] (by decide)]
    rw [splitAuxNoSep ':' hexs [] hnc]
    rfl
  have hne : pys "sha256:" ++ hexs ≠ [] := by
    intro hcontra
    exact absurd (congrArg List.length hcontra) (by simp [pys])
  unfold checksumGate
  dsimp only
  rw [hsplit]
  simp [hne, hbad]

/-- Claim C2 witness: concrete mismatch aborts before the engine. -/
theorem C2_witness :
    restore_backup_task (fun _ => pys "00") (fun d => some d) (fun _ d => some d)
        { is_encrypted := false, is_compressed := false,
          compression_type := CompressionType.none, checksum := some (pys "sha256:ff") }
        (some [1, 2])
      = .error (pys "Checksum verification failed") :=
  C2_checksum_gate (fun _ => pys "00") (fun d => some d) (fun _ d => some d)
    { is_encrypted := false, is_compressed := false,
      compression_type := CompressionType.none, checksum := some (pys "sha256:ff") }
    (some [1, 2]) (pys "ff") [1, 2] rfl (by decide) rfl (by decide)

/-! ## Claim C4 -/

/-- On a tick with no exceptions, the committed work is exactly one fired
schedule per due schedule, in order. -/
theorem tickNoFailMap (cronNext : PyStr → Nat → Nat) (now : Nat) :
    ∀ l : List ScheduleRec,
      tickCommitted (fun _ => false) cronNext now l
        = (l.filter (scheduleDue now)).map (fireSchedule cronNext now) := by
  intro l
  induction l with
  | nil => rfl
  | cons s rest ih =>
    by_cases hd : scheduleDue now s = true
    · simp [tickCommitted, hd, List.filter_cons, ih]
    · simp [tickCommitted, hd, List.filter_cons, ih]

/-- Claim C4: at a tick, every enabled schedule whose `next_run` is at most
`now` contributes exactly one new PENDING Backup row (the tick output is
the one-to-one image of the due schedules); the updated schedule has
`last_run = now` and `next_run = cronNext(expression, now)`, which — by
the croniter contract, taken as hypothesis — is strictly greater than
`now`, so intermediate missed firings are skipped; and the inserted row
does not depend on `last_run`, i.e. on how many firings had elapsed. -/
theorem C4_scheduler (cronNext : PyStr → Nat → Nat) (now : Nat)
    (schedules : List ScheduleRec) (s : ScheduleRec) (t : Nat) (lr : Option Nat)
    (hnr : s.next_run = some t) (hdue : t ≤ now)
    (hcron : now < cronNext s.cron_expression now) :
    check_scheduled_backups (fun _ => false) cronNext now schedules
      = ((schedules.filter (·.enabled)).filter (scheduleDue now)).map
          (fireSchedule cronNext now)
    ∧ scheduleDue now s = true
    ∧ (fireSchedule cronNext now s).2.status = BackupStatus.pending
    ∧ (fireSchedule cronNext now s).1.last_run = some now
    ∧ (fireSchedule cronNext now s).1.next_run = some (cronNext s.cron_expression now)
    ∧ now < cronNext s.cron_expression now
    ∧ (fireSchedule cronNext now { s with last_run := lr }).2
        = (fireSchedule cronNext now s).2 := by
  refine ⟨tickNoFailMap cronNext now _, ?_, rfl, rfl, rfl, hcron, rfl⟩
  unfold scheduleDue
  rw [hnr]
  simpa using hdue

/-- Claim C4 witness: one enabled due schedule, with a 5-minute cron step. -/
theorem C4_witness :
    check_scheduled_backups (fun _ => false) (fun _ t => t + 300) 1000
        [{ id := 1, server_id := 2, database_name := pys "orders",
           cron_expression := pys "*/5 * * * *", backup_type := SBackupType.full,
           enabled := true, last_run := none, next_run := some 900 }]
      = (([{ id := 1, server_id := 2, database_name := pys "orders",
             cron_expression := pys "*/5 * * * *", backup_type := SBackupType.full,
             enabled := true, last_run := none, next_run := some 900 }].filter
            (·.enabled)).filter (scheduleDue 1000)).map
          (fireSchedule (fun _ t => t + 300) 1000) :=
  (C4_scheduler (fun _ t => t + 300) 1000
    [{ id := 1, server_id := 2, database_name := pys "orders",
       cron_expression := pys "*/5 * * * *", backup_type := SBackupType.full,
       enabled := true, last_run := none, next_run := some 900 }]
    { id := 1, server_id := 2, database_name := pys "orders",
      cron_expression := pys "*/5 * * * *", backup_type := SBackupType.full,
      enabled := true, last_run := none, next_run := some 900 }
    900 none rfl (by decide) (by decide)).1

/-! ## Claim C8 -/

/-- Schedules used by the C8 counterexample: both enabled and due at
`now = 100`; the first one fails while being processed. -/
def c8sA : ScheduleRec :=
  { id := 1, server_id := 1, database_name := pys "db1",
    cron_expression := pys "* * * * *", backup_type := SBackupType.full,
    enabled := true, last_run := none, next_run := some 50 }

/-- Second schedule of the C8 scenario, due and not failing. -/
def c8sB : ScheduleRec :=
  { id := 2, server_id := 1, database_name := pys "db2",
    cron_expression := pys "* * * * *", backup_type := SBackupType.full,
    enabled := true, last_run := none, next_run := some 50 }

/-- Claim C8 (counterexample): the single `try` of `check_scheduled_backups`
wraps the whole loop, so when processing the first due schedule raises,
the second due, non-failing schedule is never processed: the tick commits
nothing, refuting per-schedule failure isolation. -/
theorem C8_refuted :
    c8sB.enabled = true ∧ scheduleDue 100 c8sB = true ∧
    (fun s => s.id == 1) c8sB = false ∧
    check_scheduled_backups (fun s => s.id == 1) (fun _ t => t + 60) 100 [c8sA, c8sB]
      = [] := by
  decide

/-- The tick loop stops at the first due schedule whose processing raises:
everything committed before it persists, everything at or after it is lost. -/
theorem tickStopsAtFailure (fails : ScheduleRec → Bool) (cronNext : PyStr → Nat → Nat)
    (now : Nat) :
    ∀ (xs : List ScheduleRec) (f : ScheduleRec) (ys : List ScheduleRec),
      (∀ x ∈ xs, scheduleDue now x = true → fails x = false) →
      scheduleDue now f = true → fails f = true →
      tickCommitted fails cronNext now (xs ++ f :: ys)
        = (xs.filter (scheduleDue now)).map (fireSchedule cronNext now) := by
  intro xs
  induction xs with
  | nil =>
    intro f ys _ hfD hfF
    simp [tickCommitted, hfD, hfF]
  | cons x rest ih =>
    intro f ys hxs hfD hfF
    have hrest : ∀ z ∈ rest, scheduleDue now z = true → fails z = false :=
      fun z hz => hxs z (by simp [hz])
    by_cases hd : scheduleDue now x = true
    · have hx : fails x = false := hxs x (by simp) hd
      simp [tickCommitted, hd, hx, List.filter_cons, ih f ys hrest hfD hfF]
    · simp [tickCommitted, hd, List.filter_cons, ih f ys hrest hfD hfF]

/-- Claim C8 (amended): within one tick each processed schedule is committed
independently (commit runs inside the loop), but exceptions are caught
only around the whole loop, so a failure while processing one due
schedule ends the tick: schedules processed before it stay committed,
while the failing schedule and every schedule after it are not processed. -/
theorem C8_amended (fails : ScheduleRec → Bool) (cronNext : PyStr → Nat → Nat)
    (now : Nat) (xs ys : List ScheduleRec) (f : ScheduleRec)
    (hxsE : ∀ x ∈ xs, x.enabled = true)
    (hxsF : ∀ x ∈ xs, scheduleDue now x = true → fails x = false)
    (hfE : f.enabled = true) (hfD : scheduleDue now f = true) (hfF : fails f = true) :
    check_scheduled_backups fails cronNext now (xs ++ f :: ys)
      = (xs.filter (scheduleDue now)).map (fireSchedule cronNext now) := by
  unfold check_scheduled_backups
  have hsplit : (xs ++ f :: ys).filter (·.enabled)
      = xs ++ f :: ys.filter (·.enabled) := by
    rw [List.filter_append]
    have hxsall : xs.filter (·.enabled) = xs :=
      List.filter_eq_self.mpr (fun x hx => by simpa using hxsE x hx)
    rw [hxsall, List.filter_cons]
    simp [hfE]
  rw [hsplit]
  exact tickStopsAtFailure fails cronNext now xs f (ys.filter (·.enabled)) hxsF hfD hfF

/-- Third schedule of the C8 witness scenario, processed before the failure. -/
def c8w1 : ScheduleRec :=
  { id := 3, server_id := 1, database_name := pys "dbA",
    cron_expression := pys "* * * * *", backup_type := SBackupType.full,
    enabled := true, last_run := none, next_run := some 10 }

/-- Claim C8 witness: with a failing middle schedule, only the leading
schedule's firing is committed. -/
theorem C8_witness :
    check_scheduled_backups (fun s => s.id == 1) (fun _ t => t + 60) 100
        [c8w1, c8sA, c8sB]
      = ([c8w1].filter (scheduleDue 100)).map (fireSchedule (fun _ t => t + 60) 100) :=
  C8_amended (fun s => s.id == 1) (fun _ t => t + 60) 100 [c8w1] [c8sB] c8sA
    (by decide) (by decide) (by decide) (by decide) (by decide)

/-! ## Claim C5 -/

/-- Claim C5 (counterexample): a retention policy whose only active rule is
`keep_monthly = 3` should, per the claimed union semantics, keep the single
completed backup (it is the newest of the most recent month bucket); the
implemented reaper computes an empty keep-set — `keep_weekly` and
`keep_monthly` are never consulted — and soft-deletes that backup. -/
theorem C5_refuted :
    spec_keep_ids (fun t => t / 604800) (fun t => t / 2592000) 2000000
        { keep_last_n := none, keep_days := none, keep_daily := none,
          keep_weekly := none, keep_monthly := some 3 }
        [{ id := 1, created_at := 1000000 }] = [1]
    ∧ (cleanup_old_backups 2000000
        { keep_last_n := none, keep_days := none, keep_daily := none,
          keep_weekly := none, keep_monthly := some 3 }
        [{ id := 1, created_at := 1000000 }]).1
      = [{ id := 1, status := BackupStatus.deleted, deleted_at := some 2000000 }] := by
  decide

/-- Claim C5 (amended): the reaper's keep-set is the union of the selections
of `keep_last_n`, `keep_days` and `keep_daily` only — the `keep_weekly`
and `keep_monthly` rules have no effect on the outcome; every completed
backup outside the keep-set is soft-deleted (`status = deleted`,
`deleted_at = now`), kept ones are untouched, and the reaper performs no
blob deletion. -/
theorem C5_amended (now : Nat) (policy : RetentionPolicyRec)
    (backups : List CompletedBackup) :
    cleanup_old_backups now policy backups
      = cleanup_old_backups now
          { policy with keep_weekly := none, keep_monthly := none } backups
    ∧ (cleanup_old_backups now policy backups).2 = []
    ∧ ∀ b ∈ backups,
        ((cleanup_keep_ids now policy backups).contains b.id = false →
          { id := b.id, status := BackupStatus.deleted, deleted_at := some now }
            ∈ (cleanup_old_backups now policy backups).1)
        ∧ ((cleanup_keep_ids now policy backups).contains b.id = true →
          { id := b.id, status := BackupStatus.completed, deleted_at := none }
            ∈ (cleanup_old_backups now policy backups).1) := by
  refine ⟨by cases policy; rfl, rfl, ?_⟩
  intro b hb
  constructor
  · intro hc
    have hm := List.mem_map_of_mem
      (f := fun b : CompletedBackup =>
        if (cleanup_keep_ids now policy backups).contains b.id then
          ({ id := b.id, status := BackupStatus.completed, deleted_at := none } : ReapedBackup)
        else { id := b.id, status := BackupStatus.deleted, deleted_at := some now }) hb
    have hc2 : b.id ∉ cleanup_keep_ids now policy backups := by simpa using hc
    simpa [cleanup_old_backups, hc2] using hm
  · intro hc
    have hm := List.mem_map_of_mem
      (f := fun b : CompletedBackup =>
        if (cleanup_keep_ids now policy backups).contains b.id then
          ({ id := b.id, status := BackupStatus.completed, deleted_at := none } : ReapedBackup)
        else { id := b.id, status := BackupStatus.deleted, deleted_at := some now }) hb
    have hc2 : b.id ∈ cleanup_keep_ids now policy backups := by simpa using hc
    simpa [cleanup_old_backups, hc2] using hm

/-- Claim C5 witness: with no active rules every completed backup is
soft-deleted. -/
theorem C5_witness :
    { id := 5, status := BackupStatus.deleted, deleted_at := some 7 }
      ∈ (cleanup_old_backups 7
          { keep_last_n := none, keep_days := none, keep_daily := none,
            keep_weekly := none, keep_monthly := none }
          [{ id := 5, created_at := 3 }]).1 :=
  ((C5_amended 7
    { keep_last_n := none, keep_days := none, keep_daily := none,
      keep_weekly := none, keep_monthly := none }
    [{ id := 5, created_at := 3 }]).2.2 { id := 5, created_at := 3 }
    (by decide)).1 (by decide)

/-! ## Claim C1 -/

/-- When every pipe segment has a head token, the pipe loop cannot raise
`IndexError`: it returns ok or a `ValidationError`. -/
theorem checkPipePartsShape (parts : List PyStr)
    (h : ∀ part ∈ parts, (pyTokens (pyStrip part)).head?.isSome = true) :
    checkPipeParts parts = .ok () ∨ ∃ m, checkPipeParts parts = .error (.vErr m) := by
  induction parts with
  | nil => exact Or.inl rfl
  | cons part rest ih =>
    have hp := h part (by simp)
    cases hh : (pyTokens (pyStrip part)).head? with
    | none => rw [hh] at hp; simp at hp
    | some piped =>
      by_cases hs : safePipes.any (fun sp => listLeadOf sp piped) = true
      · have hrec := ih (fun q hq => h q (by simp [hq]))
        simpa [checkPipeParts, hh, hs] using hrec
      · right
        exact ⟨pys "Unsafe pipe command: " ++ piped, by simp [checkPipeParts, hh, hs]⟩

/-- When some pattern of the list occurs in the command, the dangerous-pattern
loop returns a `ValidationError`. -/
theorem checkDangerErr (ps : List PyStr) (command : PyStr)
    (h : ps.any (fun p => containsSub p command) = true) :
    ∃ m, checkDanger ps command = .error (.vErr m) := by
  induction ps with
  | nil => simp at h
  | cons p rest ih =>
    by_cases hp : containsSub p command = true
    · exact ⟨pys "Command contains dangerous pattern: " ++ p, by simp [checkDanger, hp]⟩
    · have hrest : rest.any (fun q => containsSub q command) = true := by
        simpa [List.any_cons, hp] using h
      obtain ⟨m, hm⟩ := ih hrest
      exact ⟨m, by simp [checkDanger, hp, hm]⟩

/-- Claim C1 (counterexample): `rmdir` does not appear in the executor's
allow-list and `rmdir /data/old` contains no dangerous pattern, yet the
claim's conclusion fails: validation passes — the source tests
`command_base.startswith(prefix)` and `"rmdir"` starts with the entry
`"rm"` — so `execute` makes the transport call and returns its successful
result instead of a validation failure. -/
theorem C1_refuted :
    sshAllowList.contains (pys "rmdir") = false ∧
    hasDangerous (pys "rmdir /data/old") = false ∧
    ssh_execute (fun _ => { success := true, stdout := pys "ok", stderr := [], exit_code := 0 })
        (pys "rmdir /data/old")
      = .result { success := true, stdout := pys "ok", stderr := [], exit_code := 0 } true := by
  decide

/-- Claim C1 (amended): if the command's head token starts with no entry of
the allow-list, or the command contains a dangerous pattern among
`; & \n \r $( \x60` and every pipe segment after a `|` is non-blank (a
blank one raises `IndexError` instead), then `execute` returns a failed
`ExecutionResult` whose stderr is `Command validation failed: …`, and the
remote transport is not touched. -/
theorem C1_amended (transport : PyStr → ExecutionResult) (command : PyStr)
    (h : headNotAllowed command = true ∨
         (hasDangerous command = true ∧ pipePartsOk command = true)) :
    ∃ m, ssh_execute transport command
        = .result { success := false, stdout := [],
                    stderr := pys "Command validation failed: " ++ m,
                    exit_code := 0 } false := by
  have hval : ∃ m, ssh_validate_command command = .error (.vErr m) := by
    by_cases hs : pyStrip command = []
    · exact ⟨pys "Command cannot be empty", by simp [ssh_validate_command, hs]⟩
    · obtain hempty | ⟨c, crest, hcr, hc⟩ := pyStripHead command
      · exact absurd hempty hs
      cases hh : (pyTokens (pyStrip command)).head? with
      | none =>
        have hsome : (pyTokens (pyStrip command)).head?.isSome = true := by
          rw [hcr]
          exact pyTokensHeadSome c crest hc
        rw [hh] at hsome
        simp at hsome
      | some base =>
        by_cases hallow : sshAllowList.any (fun p => listLeadOf p base) = true
        · have hna : headNotAllowed command = false := by
            unfold headNotAllowed headTokenOf
            rw [hh]
            simp [hallow]
          have hdp : hasDangerous command = true ∧ pipePartsOk command = true := by
            rcases h with hLeft | hRight
            · rw [hna] at hLeft; exact absurd hLeft (by simp)
            · exact hRight
          have hpipe : (if containsSub (pys "|") command then
                          checkPipeParts ((splitOnChar '|' command).drop 1)
                        else .ok ()) = .ok () ∨
                       ∃ m, (if containsSub (pys "|") command then
                               checkPipeParts ((splitOnChar '|' command).drop 1)
                             else .ok ()) = .error (.vErr m) := by
            by_cases hc2 : containsSub (pys "|") command = true
            · have hall : ∀ part ∈ (splitOnChar '|' command).drop 1,
                  (pyTokens (pyStrip part)).head?.isSome = true := by
                intro part hpart
                exact List.all_eq_true.mp hdp.2 part hpart
              have := checkPipePartsShape ((splitOnChar '|' command).drop 1) hall
              simpa [hc2] using this
            · left; simp [hc2]
          rcases hpipe with hok | ⟨m, hm⟩
          · obtain ⟨m, hm⟩ := checkDangerErr sshDangerList command hdp.1
            refine ⟨m, ?_⟩
            unfold ssh_validate_command
            rw [if_neg hs, hh]
            dsimp only
            rw [if_pos hallow, hok]
            exact hm
          · refine ⟨m, ?_⟩
            unfold ssh_validate_command
            rw [if_neg hs, hh]
            dsimp only
            rw [if_pos hallow, hm]
        · refine ⟨pys "Command not allowed: " ++ base, ?_⟩
          unfold ssh_validate_command
          rw [if_neg hs, hh]
          dsimp only
          rw [if_neg hallow]
  obtain ⟨m, hm⟩ := hval
  exact ⟨m, by simp [ssh_execute, hm]⟩

/-- Claim C1 witness: `curl` starts with no allow-list entry, so the call
fails validation and never reaches the transport. -/
theorem C1_witness :
    ∃ m, ssh_execute (fun _ => { success := true, stdout := [], stderr := [], exit_code := 0 })
        (pys "curl http://evil")
      = .result { success := false, stdout := [],
                  stderr := pys "Command validation failed: " ++ m,
                  exit_code := 0 } false :=
  C1_amended (fun _ => { success := true, stdout := [], stderr := [], exit_code := 0 })
    (pys "curl http://evil") (Or.inl (by decide))

end DbBackup
